import Mathlib

/-!
# Verification of the reaction group/permission engine and auxiliary utilities

Shallow embedding of:
* the shop-scoped group/permission synchronization engine
  (methods `group/createGroup`, `group/addUser`, `group/updateGroup`,
  `group/removeUser`); the implementation itself is not part of the
  source sample (only its test suite is), so the engine is modelled
  from the specification;
* `stripeCaptureCharge`
  (imports/plugins/included/payments-stripe/server/no-meteor/util/stripeCaptureCharge.js);
* `sortMedia` (imports/plugins/core/ui/client/containers/mediaGallery.js).
-/

namespace GroupEngine

/-- Permission token: an opaque string capability. -/
abbrev Permission := String

/-- Modelled from the spec: a Group record — `id`, `shopId`, `name`,
`slug` (normalized identifier), `permissions` (list of permission tokens). -/
structure Group where
  id : Nat
  shopId : Nat
  name : String
  slug : String
  permissions : List Permission
deriving Repr, DecidableEq

/-- Modelled from the spec: input of `createGroup` — `{name, slug?, permissions[]}`. -/
structure GroupData where
  name : String
  slug : Option String
  permissions : List Permission
deriving Repr, DecidableEq

/-- Modelled from the spec: input of `updateGroup` — `{name?, permissions[]?}`. -/
structure GroupUpdate where
  name : Option String
  permissions : Option (List Permission)
deriving Repr, DecidableEq

/-- Modelled from the spec: the user-role facet of a user record —
`groups` (set of group ids) and `rolesByShop` (shopId → permission tokens). -/
structure UserRecord where
  userId : Nat
  groups : List Nat
  rolesByShop : List (Nat × List Permission)
deriving Repr, DecidableEq

/-- Modelled from the spec: the persisted state the engine touches —
the GroupStore and the UserRoleStore. -/
structure EngineState where
  groups : List Group
  users : List UserRecord
  nextId : Nat
deriving Repr, DecidableEq

/-- Modelled from the spec: the error taxonomy of §7 (StorageFailure is a
property of the excluded storage layer and is not modelled). -/
inductive EngineError where
  | accessDenied
  | duplicateGroup
  | notFound
  | noDefaultGroup
deriving Repr, DecidableEq

/-- Look a Group up by id in the GroupStore. -/
def findGroup (s : EngineState) (groupId : Nat) : Option Group :=
  s.groups.find? (fun g => g.id == groupId)

/-- Look a user record up by user id in the UserRoleStore. -/
def findUser (s : EngineState) (userId : Nat) : Option UserRecord :=
  s.users.find? (fun u => u.userId == userId)

/-- The user's effective permission list for a shop, when an entry exists. -/
def lookupRoles (u : UserRecord) (shopId : Nat) : Option (List Permission) :=
  (u.rolesByShop.find? (fun e => e.1 == shopId)).map Prod.snd

/-- Overwrite (or create) the entry of a shop in a `rolesByShop` mapping. -/
def writeRole (shopId : Nat) (perms : List Permission)
    (l : List (Nat × List Permission)) : List (Nat × List Permission) :=
  if l.any (fun e => e.1 == shopId) then
    l.map (fun e => if e.1 == shopId then (shopId, perms) else e)
  else l ++ [(shopId, perms)]

/-- Overwrite (or create) the user's `rolesByShop` entry for a shop:
the recomputation policy of §4.2 — replacement, not union. -/
def setRoles (u : UserRecord) (shopId : Nat) (perms : List Permission) : UserRecord :=
  { u with rolesByShop := writeRole shopId perms u.rolesByShop }

/-- Add an id to a set of group ids (idempotent). -/
def addRef (groupId : Nat) (l : List Nat) : List Nat :=
  if l.contains groupId then l else l ++ [groupId]

/-- Add a group id to the user's `groups` set (idempotent). -/
def addGroupRef (u : UserRecord) (groupId : Nat) : UserRecord :=
  { u with groups := addRef groupId u.groups }

/-- Remove a group id from the user's `groups` set. -/
def removeGroupRef (u : UserRecord) (groupId : Nat) : UserRecord :=
  { u with groups := u.groups.filter (fun g => g != groupId) }

/-- Replace a user record inside a user list, matching by user id. -/
def writeUser (u : UserRecord) (l : List UserRecord) : List UserRecord :=
  l.map (fun v => if v.userId == u.userId then u else v)

/-- Write an updated user record back into the UserRoleStore. -/
def updateUser (s : EngineState) (u : UserRecord) : EngineState :=
  { s with users := writeUser u s.users }

/-- Modelled from the spec: normalization of a group name into a slug
(the DefaultGroup convention turns name "Customer" into slug "customer"). -/
def slugify (name : String) : String := name.toLower

/-- Modelled from the spec: `createGroup(groupData, shopId, actingIdentity)`.
The PermissionOracle's administrative verdict (`hasPermission`) is an
externally supplied boolean, passed as an argument. Checks authorization
first, then rejects a duplicate name within the shop, else persists a new
Group with a fresh id and the derived slug. -/
def createGroup (data : GroupData) (shopId : Nat) (hasPermission : Bool)
    (s : EngineState) : Except EngineError (EngineState × Group) :=
  if !hasPermission then .error .accessDenied
  else if s.groups.any (fun g => g.shopId == shopId && g.name == data.name) then
    .error .duplicateGroup
  else
    let g : Group :=
      { id := s.nextId
        shopId := shopId
        name := data.name
        slug := data.slug.getD (slugify data.name)
        permissions := data.permissions }
    .ok ({ s with groups := s.groups ++ [g], nextId := s.nextId + 1 }, g)

/-- Modelled from the spec: `addUser(userId, groupId, actingIdentity)`.
The invitation-eligibility verdict (`canInviteToGroup`) is an externally
supplied boolean, passed as an argument. Checks authorization first; then
the Group and the user must exist; adds the group id to the user's
`groups` set and replaces `rolesByShop[shopId]` with the Group's
permissions. -/
def addUser (userId groupId : Nat) (canInviteToGroup : Bool)
    (s : EngineState) : Except EngineError EngineState :=
  if !canInviteToGroup then .error .accessDenied
  else
    match findGroup s groupId with
    | none => .error .notFound
    | some g =>
      match findUser s userId with
      | none => .error .notFound
      | some u =>
        .ok (updateUser s (setRoles (addGroupRef u groupId) g.shopId g.permissions))

/-- Modelled from the spec: the DefaultGroupResolver — the shop's group
with slug "customer". -/
def defaultGroupFor (s : EngineState) (shopId : Nat) : Option Group :=
  s.groups.find? (fun g => g.shopId == shopId && g.slug == "customer")

/-- Modelled from the spec: `removeUser(userId, groupId, actingIdentity)`.
Checks authorization first; the Group and the user must exist; resolving
the shop's DefaultGroup is fatal when it fails (`NoDefaultGroup`);
otherwise removes the group id from the user's `groups` set and replaces
`rolesByShop[shopId]` with the DefaultGroup's permissions. -/
def removeUser (userId groupId : Nat) (canInviteToGroup : Bool)
    (s : EngineState) : Except EngineError EngineState :=
  if !canInviteToGroup then .error .accessDenied
  else
    match findGroup s groupId with
    | none => .error .notFound
    | some g =>
      match findUser s userId with
      | none => .error .notFound
      | some u =>
        match defaultGroupFor s g.shopId with
        | none => .error .noDefaultGroup
        | some dg =>
          .ok (updateUser s (setRoles (removeGroupRef u groupId) g.shopId dg.permissions))

/-- Merge an update's fields onto an existing Group. -/
def applyUpdate (g : Group) (d : GroupUpdate) : Group :=
  { g with
      name := d.name.getD g.name
      permissions := d.permissions.getD g.permissions }

/-- Modelled from the spec: `updateGroup(groupId, newData, shopId, actingIdentity)`.
Checks authorization first; the Group must exist and belong to the shop;
merges the new fields onto the Group and cascades: every user currently
holding membership in this Group has `rolesByShop[shopId]` replaced with
the new permission set. -/
def updateGroup (groupId : Nat) (newData : GroupUpdate) (shopId : Nat)
    (hasPermission : Bool) (s : EngineState) :
    Except EngineError (EngineState × Group) :=
  if !hasPermission then .error .accessDenied
  else
    match findGroup s groupId with
    | none => .error .notFound
    | some g =>
      if g.shopId != shopId then .error .notFound
      else
        let g' := applyUpdate g newData
        let s' := { s with groups := s.groups.map (fun h : Group => if h.id == groupId then g' else h) }
        .ok ({ s' with users := s'.users.map (fun u : UserRecord =>
                if u.groups.contains groupId then setRoles u g.shopId g'.permissions else u) },
             g')

/-- The persisted state after a `createGroup` call: the new state on
success, the old state untouched on failure. -/
def createGroupState (data : GroupData) (shopId : Nat) (hasPermission : Bool)
    (s : EngineState) : EngineState :=
  match createGroup data shopId hasPermission s with
  | .ok (s', _) => s'
  | .error _ => s

/-- The persisted state after an `addUser` call: the new state on
success, the old state untouched on failure. -/
def addUserState (userId groupId : Nat) (canInviteToGroup : Bool)
    (s : EngineState) : EngineState :=
  match addUser userId groupId canInviteToGroup s with
  | .ok s' => s'
  | .error _ => s

/-! Concrete fixtures, mirroring the scenarios of the test suite
(shop 1; the "Shop Manager", "Managers" and "Customer" groups). -/

/-- Fixture: a fresh user with no memberships. -/
def wUser : UserRecord := { userId := 7, groups := [], rolesByShop := [] }

/-- Fixture: the "Shop Manager" group. -/
def wShopManager : Group :=
  { id := 100, shopId := 1, name := "Shop Manager", slug := "shop-manager",
    permissions := ["sample-role1", "sample-role2"] }

/-- Fixture: the "Managers" group. -/
def wManagers : Group :=
  { id := 101, shopId := 1, name := "Managers", slug := "managers",
    permissions := ["sample-role3"] }

/-- Fixture: the "Customer" group, the shop's DefaultGroup. -/
def wCustomer : Group :=
  { id := 102, shopId := 1, name := "Customer", slug := "customer",
    permissions := ["guest", "account/profile", "product", "tag", "index", "cart/completed"] }

/-- Fixture: a shop with three provisioned groups and one fresh user. -/
def wState : EngineState :=
  { groups := [wShopManager, wManagers, wCustomer], users := [wUser], nextId := 103 }

/-- Fixture: `wState` after `addUser 7 100` (member of "Shop Manager"). -/
def wUserA : UserRecord :=
  { userId := 7, groups := [100], rolesByShop := [(1, ["sample-role1", "sample-role2"])] }

/-- Fixture: the state after adding user 7 to "Shop Manager". -/
def wStateA : EngineState :=
  { groups := [wShopManager, wManagers, wCustomer], users := [wUserA], nextId := 103 }

/-- Fixture: user 7 after the further `addUser 7 101` (moved to "Managers"). -/
def wUserB : UserRecord :=
  { userId := 7, groups := [100, 101], rolesByShop := [(1, ["sample-role3"])] }

/-- Fixture: the state after the further `addUser 7 101`. -/
def wStateB : EngineState :=
  { groups := [wShopManager, wManagers, wCustomer], users := [wUserB], nextId := 103 }

/-- Fixture: user 7 after `removeUser 7 100` (back to the Customer defaults). -/
def wUserC : UserRecord :=
  { userId := 7, groups := [],
    rolesByShop := [(1, ["guest", "account/profile", "product", "tag", "index", "cart/completed"])] }

/-- Fixture: the state after `removeUser 7 100`. -/
def wStateC : EngineState :=
  { groups := [wShopManager, wManagers, wCustomer], users := [wUserC], nextId := 103 }

/-- Fixture: the `updateGroup` input changing permissions to `["new-permissions"]`. -/
def wUpdate : GroupUpdate := { name := none, permissions := some ["new-permissions"] }

/-- Fixture: the "Shop Manager" group after its permissions are updated. -/
def wGroupD : Group :=
  { id := 100, shopId := 1, name := "Shop Manager", slug := "shop-manager",
    permissions := ["new-permissions"] }

/-- Fixture: user 7 after the cascading `updateGroup` of "Shop Manager". -/
def wUserD : UserRecord :=
  { userId := 7, groups := [100], rolesByShop := [(1, ["new-permissions"])] }

/-- Fixture: the state after `updateGroup 100 {permissions := ["new-permissions"]}`. -/
def wStateD : EngineState :=
  { groups := [wGroupD, wManagers, wCustomer], users := [wUserD], nextId := 103 }

/-- Fixture: the `createGroup` input for "Shop Manager". -/
def wData : GroupData :=
  { name := "Shop Manager", slug := some "shop-manager",
    permissions := ["sample-role1", "sample-role2"] }

/-- Fixture: a shop with no groups yet. -/
def wState0 : EngineState := { groups := [], users := [wUser], nextId := 100 }

/-- Fixture: the Group persisted by `createGroup wData 1`. -/
def wCreated : Group :=
  { id := 100, shopId := 1, name := "Shop Manager", slug := "shop-manager",
    permissions := ["sample-role1", "sample-role2"] }

/-- Fixture: the state after `createGroup wData 1` on `wState0`. -/
def wState1 : EngineState := { groups := [wCreated], users := [wUser], nextId := 101 }

/-- Fixture: a shop whose DefaultGroup ("customer") was never provisioned. -/
def wStateNoCustomer : EngineState :=
  { groups := [wShopManager], users := [wUserA], nextId := 101 }

end GroupEngine

namespace StripeCapture

/-- A Stripe API error, as caught from `stripe.charges.capture`:
the fields the function reads (`code`, `message`). -/
structure StripeError where
  code : String
  message : String
deriving Repr, DecidableEq

/-- The object resolved by `stripe.charges.capture`: the field the
function reads (`status`). -/
structure CaptureResponse where
  status : String
deriving Repr, DecidableEq

/-- The result object built by `stripeCaptureCharge`. Fields never
assigned by the function stay at their initial JS value (`undefined`,
modelled as `none`; an unset `isAlreadyCaptured` is falsy, modelled
as `false`). -/
structure CaptureChargeResult where
  saved : Bool
  response : Option CaptureResponse
  error : Option StripeError
  errorCode : Option String
  errorMessage : Option String
  isAlreadyCaptured : Bool
deriving Repr, DecidableEq

/-- Embedding of `stripeCaptureCharge` (stripeCaptureCharge.js, lines 13-40).
The awaited outcome of `stripe.charges.capture` — either a resolved
response or a thrown error — is passed as an argument; the surrounding
key/instance lookups do not touch the result object. -/
def stripeCaptureCharge (captureOutcome : Except StripeError CaptureResponse) :
    CaptureChargeResult :=
  let result : CaptureChargeResult :=
    { saved := false
      response := none
      error := none
      errorCode := none
      errorMessage := none
      isAlreadyCaptured := false }
  match captureOutcome with
  | .ok captureResult =>
    let result := { result with response := some captureResult }
    if captureResult.status == "succeeded" then { result with saved := true } else result
  | .error error =>
    let result :=
      { result with
          error := some error
          errorCode := some error.code
          errorMessage := some error.message }
    if error.code == "charge_already_captured" then
      { result with isAlreadyCaptured := true }
    else result

end StripeCapture

namespace MediaGallery

/-- The metadata facet `sortMedia` reads: `priority`, which may be
absent (`undefined`/`null`, modelled as `none`). -/
structure MediaMetadata where
  priority : Option Int
deriving Repr, DecidableEq

/-- A media item: `metadata` may itself be absent. -/
structure MediaItem where
  id : Nat
  metadata : Option MediaMetadata
deriving Repr, DecidableEq

/-- The sort key of `sortMedia`'s iteratee (mediaGallery.js lines 223-229):
`const { priority } = (med && med.metadata) || {};
 if (!priority && priority !== 0) return 1000; return priority;`
An absent priority is falsy and not `=== 0`, so it maps to 1000; a present
integer priority `p` maps to `p` (for `p = 0` the `priority !== 0` guard
fails and 0 is returned; for `p ≠ 0` the value is truthy and returned). -/
def priorityKey (med : MediaItem) : Int :=
  match med.metadata.bind MediaMetadata.priority with
  | none => 1000
  | some p => p

/-- Embedding of `sortMedia` (mediaGallery.js lines 222-231): a stable
sort of the media list by `priorityKey` ascending (`_.sortBy`). -/
def sortMedia (media : List MediaItem) : List MediaItem :=
  media.insertionSort (fun a b => priorityKey a ≤ priorityKey b)

instance : IsTotal MediaItem (fun a b => priorityKey a ≤ priorityKey b) :=
  ⟨fun a b => le_total (priorityKey a) (priorityKey b)⟩

instance : IsTrans MediaItem (fun a b => priorityKey a ≤ priorityKey b) :=
  ⟨fun _ _ _ hab hbc => le_trans hab hbc⟩

end MediaGallery

/-! ## Helper lemmas for the group engine -/

namespace GroupEngine

theorem setRoles_userId (u : UserRecord) (sh : Nat) (ps : List Permission) :
    (setRoles u sh ps).userId = u.userId := rfl

theorem setRoles_groups (u : UserRecord) (sh : Nat) (ps : List Permission) :
    (setRoles u sh ps).groups = u.groups := rfl

theorem addGroupRef_userId (u : UserRecord) (gid : Nat) :
    (addGroupRef u gid).userId = u.userId := rfl

theorem removeGroupRef_userId (u : UserRecord) (gid : Nat) :
    (removeGroupRef u gid).userId = u.userId := rfl

theorem findGroup_updateUser (s : EngineState) (u : UserRecord) (gid : Nat) :
    findGroup (updateUser s u) gid = findGroup s gid := rfl

theorem find?_map_pred {α : Type} (p : α → Bool) (f : α → α)
    (hp : ∀ a, p (f a) = p a) (l : List α) :
    (l.map f).find? p = (l.find? p).map f := by
  rw [List.find?_map, show p ∘ f = p from funext hp]

theorem find?_writeRole (sh : Nat) (ps : List Permission)
    (l : List (Nat × List Permission)) :
    (writeRole sh ps l).find? (fun e => e.1 == sh) = some (sh, ps) := by
  unfold writeRole
  by_cases h : l.any (fun e => e.1 == sh) = true
  · rw [if_pos h, find?_map_pred]
    · cases heq : l.find? (fun e => e.1 == sh) with
      | none =>
        rw [List.find?_eq_none] at heq
        rw [List.any_eq_true] at h
        obtain ⟨e, he, hpe⟩ := h
        exact absurd hpe (heq e he)
      | some e₀ =>
        have hpe := List.find?_some heq
        have he : e₀.1 = sh := by simpa using hpe
        simp [he]
    · intro e
      by_cases he : (e.1 == sh) = true
      · simp [he]
      · simp [he]
  · rw [if_neg h, List.find?_append]
    have h1 : l.find? (fun e => e.1 == sh) = none := by
      rw [List.find?_eq_none]
      intro x hx hpx
      exact h (List.any_eq_true.mpr ⟨x, hx, hpx⟩)
    simp [h1]

theorem lookupRoles_setRoles (u : UserRecord) (sh : Nat) (ps : List Permission) :
    lookupRoles (setRoles u sh ps) sh = some ps := by
  unfold lookupRoles setRoles
  simp [find?_writeRole]

theorem find?_writeUser {u₀ : UserRecord} (u : UserRecord) (l : List UserRecord)
    (h0 : l.find? (fun v => v.userId == u.userId) = some u₀) :
    (writeUser u l).find? (fun v => v.userId == u.userId) = some u := by
  unfold writeUser
  rw [find?_map_pred]
  · rw [h0]
    have hpu := List.find?_some h0
    have he : u₀.userId = u.userId := by simpa using hpu
    simp [he]
  · intro v
    by_cases hv : (v.userId == u.userId) = true
    · simp [hv]
    · simp [hv]

theorem findUser_updateUser (s : EngineState) (u u₀ : UserRecord)
    (h0 : findUser s u.userId = some u₀) :
    findUser (updateUser s u) u.userId = some u := by
  unfold findUser updateUser at *
  exact find?_writeUser u s.users h0

theorem user_userId_of_findUser {s : EngineState} {uid : Nat} {u : UserRecord}
    (h : findUser s uid = some u) : u.userId = uid := by
  unfold findUser at h
  simpa using List.find?_some h

theorem group_id_of_findGroup {s : EngineState} {gid : Nat} {g : Group}
    (h : findGroup s gid = some g) : g.id = gid := by
  unfold findGroup at h
  simpa using List.find?_some h

theorem mem_addRef (gid : Nat) (l : List Nat) : gid ∈ addRef gid l := by
  unfold addRef
  by_cases h : l.contains gid = true
  · rw [if_pos h]
    exact List.elem_iff.mp h
  · rw [if_neg h]
    simp

theorem addRef_contains (gid : Nat) (l : List Nat) : (addRef gid l).contains gid = true :=
  List.elem_iff.mpr (mem_addRef gid l)

theorem addRef_of_contains (gid : Nat) (l : List Nat) (h : l.contains gid = true) :
    addRef gid l = l := by
  unfold addRef
  rw [if_pos h]

theorem writeRole_idem (sh : Nat) (ps : List Permission)
    (l : List (Nat × List Permission)) :
    writeRole sh ps (writeRole sh ps l) = writeRole sh ps l := by
  unfold writeRole
  by_cases h : l.any (fun e => e.1 == sh) = true
  · rw [if_pos h]
    have hany : ((l.map (fun e => if e.1 == sh then (sh, ps) else e)).any
        (fun e => e.1 == sh)) = true := by
      rw [List.any_eq_true] at h ⊢
      obtain ⟨e, he, hpe⟩ := h
      exact ⟨(sh, ps), List.mem_map.mpr ⟨e, he, by simp [hpe]⟩, by simp⟩
    rw [if_pos hany, List.map_map]
    apply List.map_congr_left
    intro e _
    by_cases he : (e.1 == sh) = true
    · simp [Function.comp, he]
    · simp [Function.comp, he]
  · rw [if_neg h]
    have hany : ((l ++ [(sh, ps)]).any (fun e => e.1 == sh)) = true := by simp
    rw [if_pos hany, List.map_append]
    have h1 : l.map (fun e => if e.1 == sh then (sh, ps) else e) = l := by
      have hid : ∀ e ∈ l, (if e.1 == sh then (sh, ps) else e) = e := by
        intro e he
        have hne : ¬(e.1 == sh) = true := fun hpe =>
          h (List.any_eq_true.mpr ⟨e, he, hpe⟩)
        simp [hne]
      calc l.map (fun e => if e.1 == sh then (sh, ps) else e)
          = l.map id := List.map_congr_left hid
        _ = l := List.map_id l
    rw [h1]
    simp

theorem writeUser_idem (u : UserRecord) (l : List UserRecord) :
    writeUser u (writeUser u l) = writeUser u l := by
  unfold writeUser
  rw [List.map_map]
  apply List.map_congr_left
  intro v _
  by_cases hv : (v.userId == u.userId) = true
  · simp [Function.comp, hv]
  · simp [Function.comp, hv]

theorem updateUser_idem (s : EngineState) (u : UserRecord) :
    updateUser (updateUser s u) u = updateUser s u := by
  unfold updateUser
  simp [writeUser_idem]

theorem setRoles_idem (u : UserRecord) (sh : Nat) (ps : List Permission) :
    setRoles (setRoles u sh ps) sh ps = setRoles u sh ps := by
  unfold setRoles
  simp [writeRole_idem]

theorem addUser_ok_eq (uid gid : Nat) (s s' : EngineState) (g : Group) (u : UserRecord)
    (hg : findGroup s gid = some g) (hu : findUser s uid = some u)
    (h : addUser uid gid true s = .ok s') :
    s' = updateUser s (setRoles (addGroupRef u gid) g.shopId g.permissions) := by
  simp [addUser, hg, hu] at h
  exact h.symm

theorem removeUser_ok_eq (uid gid : Nat) (s s' : EngineState) (g dg : Group)
    (u : UserRecord)
    (hg : findGroup s gid = some g) (hu : findUser s uid = some u)
    (hd : defaultGroupFor s g.shopId = some dg)
    (h : removeUser uid gid true s = .ok s') :
    s' = updateUser s (setRoles (removeGroupRef u gid) g.shopId dg.permissions) := by
  simp [removeUser, hg, hu, hd] at h
  exact h.symm

theorem updateGroup_ok_eq (gid : Nat) (nd : GroupUpdate) (s s' : EngineState)
    (g g' : Group) (hg : findGroup s gid = some g)
    (h : updateGroup gid nd g.shopId true s = .ok (s', g')) :
    g' = applyUpdate g nd ∧
      s'.users = s.users.map (fun u : UserRecord =>
        if u.groups.contains gid then setRoles u g.shopId (applyUpdate g nd).permissions
        else u) := by
  simp [updateGroup, hg] at h
  obtain ⟨h1, h2⟩ := h
  refine ⟨h2.symm, ?_⟩
  rw [← h1]
  simp

end GroupEngine

/-! ## Claim theorems for the group engine -/

namespace GroupEngine

/-- **C4**: calling `createGroup` twice with the same name for the same shop
succeeds on the first call and fails on the second with a `DuplicateGroup`
error, leaving exactly one persisted Group with that name for the shop; the
existing Group is neither merged nor overwritten. -/
theorem createGroup_rejects_duplicate (data : GroupData) (shopId : Nat)
    (s s' : EngineState) (g : Group)
    (h : createGroup data shopId true s = .ok (s', g)) :
    createGroup data shopId true s' = .error .duplicateGroup ∧
      (s'.groups.filter fun h : Group =>
        h.shopId == shopId && h.name == data.name).length = 1 ∧
      g ∈ s'.groups := by
  have hdup : s.groups.any
      (fun g : Group => g.shopId == shopId && g.name == data.name) = false := by
    by_cases hd : s.groups.any
        (fun g : Group => g.shopId == shopId && g.name == data.name) = true
    · simp [createGroup, hd] at h
    · simpa using hd
  simp [createGroup, hdup] at h
  obtain ⟨h1, h2⟩ := h
  subst h1
  subst h2
  refine ⟨?_, ?_, ?_⟩
  · simp [createGroup, hdup]
  · dsimp only
    rw [List.filter_append]
    have hnil : s.groups.filter (fun h : Group =>
        h.shopId == shopId && h.name == data.name) = [] := by
      rw [List.filter_eq_nil_iff]
      intro a ha hpa
      rw [List.any_eq_false] at hdup
      exact hdup a ha hpa
    rw [hnil]
    simp
  · simp

/-- Witness for C4: the "Shop Manager" creation scenario of the test suite. -/
theorem createGroup_rejects_duplicate_witness :
    createGroup wData 1 true wState1 = .error .duplicateGroup ∧
      (wState1.groups.filter fun h : Group =>
        h.shopId == 1 && h.name == wData.name).length = 1 ∧
      wCreated ∈ wState1.groups :=
  createGroup_rejects_duplicate wData 1 wState0 wState1 wCreated rfl

/-- **C5**: when the authorization oracle answers false, `createGroup` and
`addUser` fail with `AccessDenied` before any mutation: the persisted state is
unchanged — no Group record is created and no membership or permission entry
is recorded on the user. -/
theorem authorization_denied_leaves_no_trace (data : GroupData)
    (shopId uid gid : Nat) (s : EngineState) :
    createGroup data shopId false s = .error .accessDenied ∧
      createGroupState data shopId false s = s ∧
      addUser uid gid false s = .error .accessDenied ∧
      addUserState uid gid false s = s :=
  ⟨rfl, rfl, rfl, rfl⟩

/-- **C6**: after a successful `addUser(U, G)`, the user's `groups` set
contains G's id and `rolesByShop[G.shopId]` equals exactly G's current
permission list. -/
theorem addUser_assigns_membership_and_permissions
    (uid gid : Nat) (s s' : EngineState) (g : Group) (u : UserRecord)
    (hg : findGroup s gid = some g) (hu : findUser s uid = some u)
    (h : addUser uid gid true s = .ok s') :
    ∃ u', findUser s' uid = some u' ∧ g.id ∈ u'.groups ∧
      lookupRoles u' g.shopId = some g.permissions := by
  have hs := addUser_ok_eq uid gid s s' g u hg hu h
  have huid : u.userId = uid := user_userId_of_findUser hu
  have hgid : g.id = gid := group_id_of_findGroup hg
  refine ⟨setRoles (addGroupRef u gid) g.shopId g.permissions, ?_, ?_, ?_⟩
  · rw [hs]
    have huid' : (setRoles (addGroupRef u gid) g.shopId g.permissions).userId = uid := huid
    have h0 : findUser s (setRoles (addGroupRef u gid) g.shopId g.permissions).userId =
        some u := by
      rw [huid']
      exact hu
    have hfind := findUser_updateUser s
      (setRoles (addGroupRef u gid) g.shopId g.permissions) u h0
    rw [huid'] at hfind
    exact hfind
  · rw [hgid, setRoles_groups]
    exact mem_addRef gid u.groups
  · exact lookupRoles_setRoles (addGroupRef u gid) g.shopId g.permissions

/-- Witness for C6: adding user 7 to the "Shop Manager" group. -/
theorem addUser_assigns_membership_and_permissions_witness :
    ∃ u', findUser wStateA 7 = some u' ∧ wShopManager.id ∈ u'.groups ∧
      lookupRoles u' wShopManager.shopId = some wShopManager.permissions :=
  addUser_assigns_membership_and_permissions 7 100 wState wStateA wShopManager wUser
    rfl rfl rfl

/-- **C8**: `removeUser` on a shop that has no DefaultGroup (no "customer"
group provisioned) fails with the `NoDefaultGroup` configuration fault rather
than completing. -/
theorem removeUser_fails_without_default_group (uid gid : Nat) (s : EngineState)
    (g : Group) (u : UserRecord)
    (hg : findGroup s gid = some g) (hu : findUser s uid = some u)
    (hd : defaultGroupFor s g.shopId = none) :
    removeUser uid gid true s = .error .noDefaultGroup := by
  simp [removeUser, hg, hu, hd]

/-- Witness for C8: removing user 7 from "Shop Manager" in a shop with no
"customer" group. -/
theorem removeUser_fails_without_default_group_witness :
    removeUser 7 100 true wStateNoCustomer = .error .noDefaultGroup :=
  removeUser_fails_without_default_group 7 100 wStateNoCustomer wShopManager wUserA
    rfl rfl rfl

end GroupEngine

namespace GroupEngine

theorem addRef_idem (gid : Nat) (l : List Nat) :
    addRef gid (addRef gid l) = addRef gid l :=
  addRef_of_contains gid (addRef gid l) (addRef_contains gid l)

theorem addGroupRef_contains_eq (v : UserRecord) (gid : Nat)
    (hc : v.groups.contains gid = true) : addGroupRef v gid = v := by
  unfold addGroupRef
  rw [addRef_of_contains gid v.groups hc]

/-- **C1**: a user already assigned to group G1 (permissions P1) of shop S who
is then added to group G2 of the same shop (permissions P2, disjoint from P1)
ends with `rolesByShop[S]` containing all of P2 and none of P1 — the
permission projection is replaced, never unioned. -/
theorem addUser_replaces_previous_group_permissions
    (uid gid1 gid2 : Nat) (s s1 s2 : EngineState) (g1 g2 : Group) (u1 : UserRecord)
    (hg1 : findGroup s gid1 = some g1)
    (h1 : addUser uid gid1 true s = .ok s1)
    (hshop : g2.shopId = g1.shopId)
    (hg2 : findGroup s1 gid2 = some g2)
    (hu1 : findUser s1 uid = some u1)
    (hdisj : ∀ p ∈ g1.permissions, p ∉ g2.permissions)
    (h2 : addUser uid gid2 true s1 = .ok s2) :
    ∃ u' ps, findUser s2 uid = some u' ∧ lookupRoles u' g1.shopId = some ps ∧
      (∀ p ∈ g2.permissions, p ∈ ps) ∧ ∀ p ∈ g1.permissions, p ∉ ps := by
  have hs := addUser_ok_eq uid gid2 s1 s2 g2 u1 hg2 hu1 h2
  have huid : u1.userId = uid := user_userId_of_findUser hu1
  refine ⟨setRoles (addGroupRef u1 gid2) g2.shopId g2.permissions, g2.permissions,
    ?_, ?_, ?_, ?_⟩
  · rw [hs]
    have huid' : (setRoles (addGroupRef u1 gid2) g2.shopId g2.permissions).userId =
        uid := huid
    have h0 : findUser s1
        (setRoles (addGroupRef u1 gid2) g2.shopId g2.permissions).userId = some u1 := by
      rw [huid']
      exact hu1
    have hfind := findUser_updateUser s1
      (setRoles (addGroupRef u1 gid2) g2.shopId g2.permissions) u1 h0
    rw [huid'] at hfind
    exact hfind
  · rw [← hshop]
    exact lookupRoles_setRoles (addGroupRef u1 gid2) g2.shopId g2.permissions
  · intro p hp
    exact hp
  · intro p hp
    exact hdisj p hp

/-- Witness for C1: user 7 moved from "Shop Manager" to "Managers"; the
permission sets are disjoint and the final roles are exactly "Managers"'. -/
theorem addUser_replaces_previous_group_permissions_witness :
    (∀ p ∈ wShopManager.permissions, p ∉ wManagers.permissions) ∧
      ∃ u' ps, findUser wStateB 7 = some u' ∧
        lookupRoles u' wShopManager.shopId = some ps ∧
        (∀ p ∈ wManagers.permissions, p ∈ ps) ∧
        ∀ p ∈ wShopManager.permissions, p ∉ ps :=
  ⟨by decide,
    addUser_replaces_previous_group_permissions 7 100 101 wState wStateA wStateB
      wShopManager wManagers wUserA rfl rfl rfl rfl rfl (by decide) rfl⟩

/-- **C2**: after a successful `removeUser(U, G)`, the group id is gone from
the user's `groups` set and `rolesByShop[S]` equals the permission set of the
shop's DefaultGroup (the "customer" group) — never an empty or stale set. -/
theorem removeUser_restores_default_permissions
    (uid gid : Nat) (s s' : EngineState) (g dg : Group) (u : UserRecord)
    (hg : findGroup s gid = some g) (hu : findUser s uid = some u)
    (hd : defaultGroupFor s g.shopId = some dg)
    (h : removeUser uid gid true s = .ok s') :
    ∃ u', findUser s' uid = some u' ∧ gid ∉ u'.groups ∧
      lookupRoles u' g.shopId = some dg.permissions := by
  have hs := removeUser_ok_eq uid gid s s' g dg u hg hu hd h
  have huid : u.userId = uid := user_userId_of_findUser hu
  refine ⟨setRoles (removeGroupRef u gid) g.shopId dg.permissions, ?_, ?_, ?_⟩
  · rw [hs]
    have huid' : (setRoles (removeGroupRef u gid) g.shopId dg.permissions).userId =
        uid := huid
    have h0 : findUser s
        (setRoles (removeGroupRef u gid) g.shopId dg.permissions).userId = some u := by
      rw [huid']
      exact hu
    have hfind := findUser_updateUser s
      (setRoles (removeGroupRef u gid) g.shopId dg.permissions) u h0
    rw [huid'] at hfind
    exact hfind
  · rw [setRoles_groups]
    simp [removeGroupRef]
  · exact lookupRoles_setRoles (removeGroupRef u gid) g.shopId dg.permissions

/-- Witness for C2: removing user 7 from "Shop Manager" falls back to the
"Customer" group's permissions. -/
theorem removeUser_restores_default_permissions_witness :
    ∃ u', findUser wStateC 7 = some u' ∧ 100 ∉ u'.groups ∧
      lookupRoles u' wShopManager.shopId = some wCustomer.permissions :=
  removeUser_restores_default_permissions 7 100 wStateA wStateC wShopManager wCustomer
    wUserA rfl rfl rfl rfl

/-- **C3**: a successful `updateGroup` that changes the permissions of group G
recomputes `rolesByShop[S]` of every current member of G to exactly the new
permission set as part of the call itself — a replacement of the old set. -/
theorem updateGroup_cascades_to_members
    (gid uid : Nat) (nd : GroupUpdate) (s s' : EngineState) (g g' : Group)
    (u : UserRecord) (ps : List Permission)
    (hg : findGroup s gid = some g)
    (hu : findUser s uid = some u) (hm : u.groups.contains gid = true)
    (hp : nd.permissions = some ps)
    (h : updateGroup gid nd g.shopId true s = .ok (s', g')) :
    g'.permissions = ps ∧
      ∃ u', findUser s' uid = some u' ∧ lookupRoles u' g.shopId = some ps := by
  obtain ⟨hg', husers⟩ := updateGroup_ok_eq gid nd s s' g g' hg h
  have hps : (applyUpdate g nd).permissions = ps := by
    simp [applyUpdate, hp]
  refine ⟨by rw [hg']; exact hps, ?_⟩
  refine ⟨setRoles u g.shopId (applyUpdate g nd).permissions, ?_, ?_⟩
  · have hm' : gid ∈ u.groups := by simpa using hm
    unfold findUser
    rw [husers, find?_map_pred]
    · unfold findUser at hu
      rw [hu]
      simp [hm']
    · intro v
      by_cases hv : gid ∈ v.groups
      · simp [hv, setRoles_userId]
      · simp [hv]
  · rw [hps]
    exact lookupRoles_setRoles u g.shopId ps

/-- Witness for C3: updating "Shop Manager" to `["new-permissions"]` cascades
to its member, user 7. -/
theorem updateGroup_cascades_to_members_witness :
    wGroupD.permissions = ["new-permissions"] ∧
      ∃ u', findUser wStateD 7 = some u' ∧
        lookupRoles u' wShopManager.shopId = some ["new-permissions"] :=
  updateGroup_cascades_to_members 100 7 wUpdate wStateA wStateD wShopManager wGroupD
    wUserA ["new-permissions"] rfl rfl rfl rfl rfl

/-- **C7**: `addUser` is idempotent — after it has succeeded once, calling it
again with the same user and group succeeds and returns the state unchanged:
the user's `groups` set and `rolesByShop` entry are the same as after the
first call. -/
theorem addUser_idempotent (uid gid : Nat) (s s' : EngineState) (g : Group)
    (u : UserRecord)
    (hg : findGroup s gid = some g) (hu : findUser s uid = some u)
    (h : addUser uid gid true s = .ok s') :
    addUser uid gid true s' = .ok s' := by
  have hs := addUser_ok_eq uid gid s s' g u hg hu h
  have huid : u.userId = uid := user_userId_of_findUser hu
  have hg' : findGroup s' gid = some g := by
    rw [hs, findGroup_updateUser]
    exact hg
  have huid' : (setRoles (addGroupRef u gid) g.shopId g.permissions).userId = uid := huid
  have hufind : findUser s' uid =
      some (setRoles (addGroupRef u gid) g.shopId g.permissions) := by
    rw [hs]
    have h0 : findUser s
        (setRoles (addGroupRef u gid) g.shopId g.permissions).userId = some u := by
      rw [huid']
      exact hu
    have hfind := findUser_updateUser s
      (setRoles (addGroupRef u gid) g.shopId g.permissions) u h0
    rw [huid'] at hfind
    exact hfind
  have hc : (setRoles (addGroupRef u gid) g.shopId g.permissions).groups.contains gid =
      true := addRef_contains gid u.groups
  have e1 := addGroupRef_contains_eq
    (setRoles (addGroupRef u gid) g.shopId g.permissions) gid hc
  simp only [addUser, hg', hufind, Bool.not_true, Bool.false_eq_true, if_false]
  rw [e1, setRoles_idem, hs, updateUser_idem]

/-- Witness for C7: adding user 7 to "Shop Manager" a second time returns the
state after the first addition unchanged. -/
theorem addUser_idempotent_witness : addUser 7 100 true wStateA = .ok wStateA :=
  addUser_idempotent 7 100 wState wStateA wShopManager wUser rfl rfl rfl

end GroupEngine

/-! ## Claim theorems for stripeCaptureCharge and sortMedia -/

namespace StripeCapture

/-- **C9**: `stripeCaptureCharge` never throws — it always returns a result
object. When the underlying `stripe.charges.capture` call throws an error E,
the result has `saved = false`, `error = E`, `errorCode = E.code`,
`errorMessage = E.message`, and `isAlreadyCaptured` is true exactly when
`E.code` is `"charge_already_captured"`. When the capture call returns
normally, `result.saved` is true if and only if the capture result's `status`
equals `"succeeded"`. -/
theorem stripeCaptureCharge_result_spec (e : StripeError) (r : CaptureResponse) :
    (stripeCaptureCharge (.error e)).saved = false ∧
      (stripeCaptureCharge (.error e)).error = some e ∧
      (stripeCaptureCharge (.error e)).errorCode = some e.code ∧
      (stripeCaptureCharge (.error e)).errorMessage = some e.message ∧
      (stripeCaptureCharge (.error e)).isAlreadyCaptured =
        (e.code == "charge_already_captured") ∧
      (stripeCaptureCharge (.ok r)).response = some r ∧
      (stripeCaptureCharge (.ok r)).saved = (r.status == "succeeded") := by
  refine ⟨?_, ?_, ?_, ?_, ?_, ?_, ?_⟩ <;>
    simp only [stripeCaptureCharge] <;>
    split <;>
    simp_all

end StripeCapture

namespace MediaGallery

/-- **C10**: `sortMedia` returns a permutation of its input (no item dropped
or duplicated) ordered by the priority sort key ascending, where an item with
an absent priority gets the key 1000 (and therefore sorts after every item
with a priority below 1000), while a present priority `p` — including an
explicit 0, which sorts first among non-negative priorities — is its own key. -/
theorem sortMedia_sorts_by_priority (media : List MediaItem) :
    (sortMedia media).Perm media ∧
      (sortMedia media).Sorted (fun a b => priorityKey a ≤ priorityKey b) ∧
      (∀ (i : Nat) (o : Option Int), priorityKey ⟨i, some ⟨o⟩⟩ = o.getD 1000) ∧
      ∀ i : Nat, priorityKey ⟨i, none⟩ = 1000 := by
  refine ⟨List.perm_insertionSort _ media, List.sorted_insertionSort _ media, ?_, ?_⟩
  · intro i o
    cases o <;> rfl
  · intro i
    rfl

end MediaGallery
